import Mathlib

/-!
Shallow embedding of the `sead_data_diff` repository: the comparison
orchestration engine of `src/differ.py`, the dotted-path configuration
helpers of `src/utility.py`, and the `Config` class of `src/config.py`.

Python dictionaries are modelled as association lists (Python dicts keep
insertion order, and the code iterates them in that order); Python `None`
becomes `Option.none`; database effects (metadata maps, `count(*)` queries,
the external row-diff engine) are modelled as explicit inputs in a
`DbState` record; exceptions become an explicit `Except` result; the
observable actions of a run (log events at the `log_diff` call sites and
the database operations) become an explicit event trace.
-/

/-! ## Python value trees and string helpers (for `src/utility.py`) -/

/-- A Python value as stored in a configuration tree: either a nested
dict (association list, insertion-ordered) or an opaque scalar. -/
inductive PyVal where
  | leaf : Nat → PyVal
  | dict : List (String × PyVal) → PyVal

/-- Lookup in a Python dict modelled as an association list:
`d.get(key)`, returning `none` when the key is absent. -/
def pyDictGet : List (String × PyVal) → String → Option PyVal
  | [], _ => none
  | (k, v) :: rest, a => if k = a then some v else pyDictGet rest a

/-- Core of Python `s.split(c)` over the character list. Always returns at
least one (possibly empty) piece, like Python `str.split` with an explicit
separator. -/
def splitOnChar (c : Char) : List Char → List (List Char)
  | [] => [[]]
  | x :: xs =>
    match splitOnChar c xs, decide (x = c) with
    | r, true => [] :: r
    | [], false => [[x]]
    | h :: t, false => (x :: h) :: t

/-- Python `s.split(c)` for a one-character separator. -/
def pySplit (c : Char) (s : String) : List String :=
  (splitOnChar c s.data).map (fun l => String.mk l)

/-- Python `s.replace(a, b)` for one-character arguments. -/
def pyReplaceChar (a b : Char) (s : String) : String :=
  String.mk (s.data.map (fun c => if c = a then b else c))

/-- Python `s.replace(' ', '')`: drop every space character. -/
def pyRemoveSpaces (s : String) : String :=
  String.mk (s.data.filter (fun c => ¬ c = ' '))

/-- Python `c in s` for a single character. -/
def pyContainsChar (c : Char) (s : String) : Bool :=
  s.data.contains c

/-- Embedding of `dotexpand` (src/utility.py lines 28-38): split the path
on ',' after removing spaces, drop empty pieces, and expand each piece
containing ':' into its '.'-joined and '_'-joined variants. A piece
without ':' is kept verbatim, even when it contains '_'. -/
def dotexpand (path : String) : List String :=
  (pySplit ',' (pyRemoveSpaces path)).foldr
    (fun p acc =>
      if p = "" then acc
      else if pyContainsChar ':' p then
        pyReplaceChar ':' '.' p :: pyReplaceChar ':' '_' p :: acc
      else p :: acc)
    []

/-- Inner loop of `dotget`: walk one '.'-separated key down the value
tree; `d.get(attr) if isinstance(d, dict) else None`, stopping with `None`
as soon as a segment is missing or a non-dict is entered. -/
def pyGetPath : PyVal → List String → Option PyVal
  | d, [] => some d
  | .dict es, a :: rest =>
    match pyDictGet es a with
    | some v => pyGetPath v rest
    | none => none
  | .leaf _, _ :: _ => none

/-- Outer loop of `dotget`: try each expanded key in order, returning the
first non-`None` hit. -/
def dotgetList (data : PyVal) : List String → Option PyVal
  | [] => none
  | k :: ks =>
    match pyGetPath data (pySplit '.' k) with
    | some v => some v
    | none => dotgetList data ks

/-- Embedding of `dotget` (src/utility.py lines 41-53) with
`default=None`: expand the path with `dotexpand`, then look each expanded
key up by splitting it on '.'. -/
def dotget (data : PyVal) (path : String) : Option PyVal :=
  dotgetList data (dotexpand path)

/-- Embedding of `dotexists` (src/utility.py lines 21-25): true iff some
path resolves to a value (the sentinel default `"@@"` in the source marks
exactly the non-`None` results). -/
def dotexists (data : PyVal) (paths : List String) : Bool :=
  paths.any (fun p => (dotget data p).isSome)

/-- Truthiness of a `PyVal` under Python `not data`: an empty dict is
falsy; scalars are kept truthy (the code only applies the test to the
configuration dict). -/
def pyFalsyVal : PyVal → Bool
  | .dict es => es.isEmpty
  | .leaf _ => false

/-- Loop of `dget` (src/utility.py lines 12-18): first non-`None`
`dotget` over the variadic paths. -/
def dgetLoop (data : PyVal) : List String → Option PyVal
  | [] => none
  | p :: rest =>
    match dotget data p with
    | some v => some v
    | none => dgetLoop data rest

/-- Embedding of `dget` (src/utility.py lines 4-18) with `default=None`:
empty data short-circuits to the default, else the first non-`None`
`dotget` result wins. -/
def dget (data : PyVal) (paths : List String) : Option PyVal :=
  if pyFalsyVal data then none else dgetLoop data paths

example : dotexpand "x:y" = ["x.y", "x_y"] := by decide
example : dotexpand "x_y" = ["x_y"] := by decide
example : pySplit '.' "x.y" = ["x", "y"] := by decide

/-! ## Table descriptors (`DbTableInfo`, src/differ.py lines 19-43) -/

/-- Embedding of the `DbTableInfo` dataclass (src/differ.py lines 19-24):
`primary_keys` is `None` or a non-empty tuple as built by
`DatabaseProxy.schemas`; `columns` is the full ordered column tuple. -/
structure DbTableInfo where
  schema_name : String
  table_name : String
  primary_keys : Option (List String)
  columns : List String

/-- Embedding of `DbTableInfo.timestamp` (src/differ.py lines 26-28):
`"date_updated"` when that column is present, else `None`. -/
def DbTableInfo.timestamp (t : DbTableInfo) : Option String :=
  if t.columns.contains "date_updated" then some "date_updated" else none

/-- Embedding of `DbTableInfo.value_columns` (src/differ.py lines 30-32). -/
def DbTableInfo.value_columns (t : DbTableInfo) : List String :=
  match t.timestamp with
  | none => t.columns
  | some ts => t.columns.filter (fun x => ¬ x = ts)

/-- Return value of `DbTableInfo.__eq__` between two descriptors
(src/differ.py lines 34-43). The parenthesised conjunction in the source
ends with a trailing comma, so Python returns the one-element tuple
`(conjunction,)` rather than the boolean itself; the tuple is modelled as
the list of its elements. -/
def DbTableInfo.eqReturnTuple (a b : DbTableInfo) : List Bool :=
  [a.schema_name == b.schema_name
    && a.table_name == b.table_name
    && a.primary_keys == b.primary_keys
    && a.columns == b.columns
    && a.timestamp == b.timestamp]

/-- Python truthiness of a tuple: non-empty tuples are truthy. -/
def pyTruthyTuple (t : List Bool) : Bool :=
  !t.isEmpty

/-- Truth value Python assigns to `a == b` for two `DbTableInfo` values:
the truthiness of the tuple returned by `__eq__`. Because the tuple is
always one element long, this is `true` for every descriptor pair. -/
def DbTableInfo.pyEqBool (a b : DbTableInfo) : Bool :=
  pyTruthyTuple (DbTableInfo.eqReturnTuple a b)

/-- Truth value of `a != b` for two `DbTableInfo` values: Python's default
`__ne__` negates the truth value of the `__eq__` result. -/
def DbTableInfo.pyNe (a b : DbTableInfo) : Bool :=
  !DbTableInfo.pyEqBool a b

/-- Truth value of `source_table != target_table` at src/differ.py line
210, where the target side may be `None` (the `.get` miss of line 208):
`__eq__` returns the plain boolean `False` for a non-`DbTableInfo`
argument, so `!=` against `None` is `True`. -/
def neTarget (s : DbTableInfo) : Option DbTableInfo → Bool
  | none => true
  | some t => DbTableInfo.pyNe s t

/-- Equality of table descriptors as the specification words it (spec.md
section 3): two descriptors are equal iff schema name, table name, primary
key sequence, full column sequence, and derived timestamp column all
match. Stated separately from `DbTableInfo.eqReturnTuple` so the two can
be compared. -/
def DbTableInfo.specEq (a b : DbTableInfo) : Bool :=
  a.schema_name == b.schema_name
    && a.table_name == b.table_name
    && a.primary_keys == b.primary_keys
    && a.columns == b.columns
    && a.timestamp == b.timestamp

/-- Truthiness of `not source_table.primary_keys` (src/differ.py line
199): `None` and the empty tuple are falsy. -/
def pyFalsyKeys : Option (List String) → Bool
  | none => true
  | some l => l.isEmpty

/-- Primary-key tuple as built by `DatabaseProxy.schemas` (src/differ.py
lines 113-118): `tuple(pk_keys.split(",")) if pk_keys else None`, where
`pk_keys` is SQL `NULL` or a comma-joined non-empty string. -/
def mkPrimaryKeys : Option String → Option (List String)
  | none => none
  | some s => if s = "" then none else some (pySplit ',' s)

/-! ## The comparison run (`data_compare`, src/differ.py lines 147-277) -/

/-- Result of materialising the external row-diff generator at
src/differ.py line 247 (`list(diff_res)`): either the list of differing
rows, or a raised `ValueError` (the class caught at line 248), or any
other raised error (not caught by the function). -/
inductive DiffRes where
  | rows : List String → DiffRes
  | raiseValue : String → DiffRes
  | raiseOther : DiffRes
deriving DecidableEq, Repr

/-- Python exceptions that the embedded code can surface. -/
inductive PyExc where
  | keyError : String → PyExc
  | valueError : String → PyExc
  | attributeError : String → PyExc
  | runtimeError : PyExc
deriving DecidableEq, Repr

/-- Observable actions of one `data_compare` run, in order: the log
events emitted at the `log_diff` call sites and the database operations
(count queries, row-diff invocations, report writes). -/
inductive Event where
  | skippedSchema : String → Event
  | extraTables : String → Event
  | missingSchema : String → Event
  | noPk : String → String → Event
  | shapeMismatch : String → String → Event
  | countSrc : String → String → Nat → Event
  | countTgt : String → String → Nat → Event
  | countMismatch : String → String → Event
  | emptyBoth : String → String → Event
  | diffInvoked : String → String → Event
  | diffFailed : String → String → Event
  | dataDiffers : String → String → Event
  | reportWritten : String → String → Event
  | dataSame : String → String → Event
deriving DecidableEq, Repr

/-- Outcome of one loop-body iteration inside `data_compare`: fall
through to the next item (`next b`, where `b` is false exactly when the
iteration executed `is_same = False`), execute `return False`, or raise. -/
inductive StepOut where
  | next : Bool → StepOut
  | retFalse : StepOut
  | exc : PyExc → StepOut
deriving DecidableEq, Repr

/-- Keyword arguments of `data_compare` that steer control flow:
`schemas` is the allow-list (`None` and the empty list are both falsy in
`if schemas and ...`, so both are modelled as `[]`), `break_on_diff` the
early-exit flag, `output_file` whether a report sink is configured.
`verbose` only gates log visibility and is omitted; `progress` is fixed
to its default `True` (with it disabled, `pbar.set_description` at
src/differ.py line 197 would fail on a plain iterator, a path no claim
covers). -/
structure CompareArgs where
  schemas : List String
  break_on_diff : Bool
  output_file : Bool

/-- Map from table name to descriptor for one schema. -/
abbrev TableMap := List (String × DbTableInfo)

/-- Map from schema name to its table map, one per database side. -/
abbrev SchemaMap := List (String × TableMap)

/-- State of the two databases as `data_compare` observes it: the cached
schema maps of both proxies, the live `record_count` answers of both
sides, and the behaviour of the external row-diff engine per table. -/
structure DbState where
  srcSchemas : SchemaMap
  tgtSchemas : SchemaMap
  srcCount : String → String → Nat
  tgtCount : String → String → Nat
  diffResult : String → String → DiffRes

/-- Body of the per-table loop of `data_compare` (src/differ.py lines
196-275) for one source table: skip tables without a primary key (line
199), test `source_table != target_table` (line 210), compare the two
live row counts (lines 222-233), skip tables empty on both sides (line
235), and otherwise materialise the row diff (lines 239-275), catching
only `ValueError`. -/
def tableStep (st : DbState) (args : CompareArgs) (sname : String)
    (tgtTables : TableMap) (tname : String) (src_tbl : DbTableInfo) :
    List Event × StepOut :=
  if pyFalsyKeys src_tbl.primary_keys then
    ([Event.noPk sname tname], StepOut.next true)
  else
    let target_table := tgtTables.lookup tname
    if neTarget src_tbl target_table then
      ([Event.shapeMismatch sname tname],
        if args.break_on_diff then StepOut.retFalse else StepOut.next false)
    else
      let rc := st.srcCount sname tname
      let tc := st.tgtCount sname tname
      let cevs := [Event.countSrc sname tname rc, Event.countTgt sname tname tc]
      if ¬ rc = tc then
        (cevs ++ [Event.countMismatch sname tname],
          if args.break_on_diff then StepOut.retFalse else StepOut.next false)
      else if rc = 0 then
        (cevs ++ [Event.emptyBoth sname tname], StepOut.next true)
      else
        match st.diffResult sname tname with
        | DiffRes.raiseValue _ =>
          (cevs ++ [Event.diffInvoked sname tname, Event.diffFailed sname tname],
            StepOut.next true)
        | DiffRes.raiseOther =>
          (cevs ++ [Event.diffInvoked sname tname], StepOut.exc PyExc.runtimeError)
        | DiffRes.rows rs =>
          if rs.isEmpty then
            (cevs ++ [Event.diffInvoked sname tname, Event.dataSame sname tname],
              StepOut.next true)
          else
            (cevs ++ [Event.diffInvoked sname tname, Event.dataDiffers sname tname]
                ++ (if args.output_file then [Event.reportWritten sname tname] else []),
              if args.break_on_diff then StepOut.retFalse else StepOut.next false)

/-- Combine one iteration's `is_same` contribution with the rest of a
loop: a later `return False` or exception wins, otherwise the boolean
flags conjoin. -/
def combineNext (s : Bool) : StepOut → StepOut
  | StepOut.next s2 => StepOut.next (s && s2)
  | o => o

/-- The per-table loop over one schema's source tables, in map order. -/
def tablesLoop (st : DbState) (args : CompareArgs) (sname : String)
    (tgtTables : TableMap) : TableMap → List Event × StepOut
  | [] => ([], StepOut.next true)
  | (tname, ti) :: rest =>
    match tableStep st args sname tgtTables tname ti with
    | (evs, StepOut.next s) =>
      (evs ++ (tablesLoop st args sname tgtTables rest).1,
        combineNext s (tablesLoop st args sname tgtTables rest).2)
    | (evs, StepOut.retFalse) => (evs, StepOut.retFalse)
    | (evs, StepOut.exc e) => (evs, StepOut.exc e)

/-- Body of the per-schema loop of `data_compare` (src/differ.py lines
172-275) for one source schema. The allow-list test of line 173 comes
first; then line 177 subscripts `target.schemas[schema_name]` inside the
extra-tables check, which raises `KeyError` when the schema is absent
from the target, before the `schema_name not in target.schemas` test of
line 184 can run -- that branch is therefore unreachable and is kept here
verbatim as dead code. -/
def schemaStep (st : DbState) (args : CompareArgs)
    (entry : String × TableMap) : List Event × StepOut :=
  let sname := entry.1
  let tables := entry.2
  if (!args.schemas.isEmpty) && (!args.schemas.contains sname) then
    ([Event.skippedSchema sname], StepOut.next true)
  else
    match (st.tgtSchemas.lookup sname : Option TableMap) with
    | none => ([], StepOut.exc (PyExc.keyError sname))
    | some tgtTables =>
      let extra := tgtTables.any (fun p => (tables.lookup p.1).isNone)
      let evs0 := if extra then [Event.extraTables sname] else []
      if extra && args.break_on_diff then
        (evs0, StepOut.retFalse)
      else if (st.tgtSchemas.lookup sname).isNone then
        (evs0 ++ [Event.missingSchema sname],
          if args.break_on_diff then StepOut.retFalse else StepOut.next false)
      else
        (evs0 ++ (tablesLoop st args sname tgtTables tables).1,
          combineNext (!extra) (tablesLoop st args sname tgtTables tables).2)

/-- Combine one schema's `is_same` contribution with the rest of the run. -/
def combineOk (s : Bool) : Except PyExc Bool → Except PyExc Bool
  | Except.ok b => Except.ok (s && b)
  | e => e

/-- The outer loop of `data_compare` over the source schema map. -/
def schemasLoop (st : DbState) (args : CompareArgs) :
    SchemaMap → List Event × Except PyExc Bool
  | [] => ([], Except.ok true)
  | entry :: rest =>
    match schemaStep st args entry with
    | (evs, StepOut.next s) =>
      (evs ++ (schemasLoop st args rest).1,
        combineOk s (schemasLoop st args rest).2)
    | (evs, StepOut.retFalse) => (evs, Except.ok false)
    | (evs, StepOut.exc e) => (evs, Except.error e)

/-- Embedding of `data_compare` (src/differ.py lines 147-277) given
already-resolved database proxies: the event trace of the run together
with either the returned boolean or the exception that escaped. -/
def data_compare (st : DbState) (args : CompareArgs) :
    List Event × Except PyExc Bool :=
  schemasLoop st args st.srcSchemas

/-! ## The `Config` class (src/config.py lines 15-42) -/

/-- Embedding of a `Config` instance: a `dict` subclass, so it carries
the dict entries themselves, plus the instance attribute dictionary
(`__dict__`). Neither `dict` nor the `Config` class body defines an
attribute named `data`, so an attribute read of `data` succeeds only if
it was assigned on the instance. -/
structure Config where
  entries : List (String × PyVal)
  instAttrs : List (String × PyVal)

/-- Embedding of `Config.__init__` (src/config.py lines 22-26): the dict
content is initialised from the given map and no instance attribute is
ever assigned. -/
def Config.make (m : List (String × PyVal)) : Config :=
  { entries := m, instAttrs := [] }

/-- Evaluation of the attribute read `self.data` (src/config.py lines 34
and 42): look the name up in the instance attribute dictionary and raise
`AttributeError` on a miss. -/
def Config.dataAttr (c : Config) : Except PyExc PyVal :=
  match pyDictGet c.instAttrs "data" with
  | some v => Except.ok v
  | none => Except.error (PyExc.attributeError "data")

/-- Embedding of `Config.exists` (src/config.py lines 41-42):
`dotexists(self.data, *keys)`, which first evaluates `self.data`. -/
def Config.existsKeys (c : Config) (keys : List String) : Except PyExc Bool :=
  match c.dataAttr with
  | Except.ok d => Except.ok (dotexists d keys)
  | Except.error e => Except.error e

/-- Body of `Config.get` after the mandatory check (src/config.py lines
34-39): `dget(self.data, *keys)` with a plain default. -/
def Config.getBody (c : Config) (keys : List String) (default : Option PyVal) :
    Except PyExc (Option PyVal) :=
  match c.dataAttr with
  | Except.error e => Except.error e
  | Except.ok d =>
    match dget d keys with
    | some v => Except.ok (some v)
    | none => Except.ok default

/-- Embedding of `Config.get` (src/config.py lines 28-39): when
`mandatory` is set, `self.exists(*keys)` runs first and a negative answer
raises `ValueError`; then the body reads `self.data`. -/
def Config.get (c : Config) (keys : List String) (mandatory : Bool)
    (default : Option PyVal) : Except PyExc (Option PyVal) :=
  if mandatory then
    match c.existsKeys keys with
    | Except.error e => Except.error e
    | Except.ok ex =>
      if ex then c.getBody keys default
      else Except.error (PyExc.valueError "Missing mandatory key")
  else c.getBody keys default

/-- Plain dict indexing `config[key]`, the `dict.__getitem__` inherited
by `Config` and used at src/differ.py lines 164-165: the stored value, or
`KeyError` on a miss. -/
def Config.getitem (c : Config) (k : String) : Except PyExc PyVal :=
  match pyDictGet c.entries k with
  | some v => Except.ok v
  | none => Except.error (PyExc.keyError k)

/-! ## Helper lemmas on the loops -/
/-! ## Helper lemmas on the loops -/

/-- A per-table loop that falls through with its flag still set had every
iteration fall through with the flag set. -/
lemma tablesLoop_next_true {st : DbState} {args : CompareArgs} {sname : String}
    {tgtTables : TableMap} {l : TableMap}
    (h : (tablesLoop st args sname tgtTables l).2 = StepOut.next true) :
    ∀ tname ti, (tname, ti) ∈ l →
      (tableStep st args sname tgtTables tname ti).2 = StepOut.next true := by
  induction l with
  | nil => intro tname ti hm; cases hm
  | cons hd tl ih =>
    intro tname ti hm
    obtain ⟨tn, tinfo⟩ := hd
    rcases hts : tableStep st args sname tgtTables tn tinfo with ⟨evs, out⟩
    cases out with
    | next s =>
      have hrec : combineNext s (tablesLoop st args sname tgtTables tl).2
          = StepOut.next true := by
        simpa [tablesLoop, hts] using h
      rcases hrest : (tablesLoop st args sname tgtTables tl).2 with s2 | _ | e
      · rw [hrest] at hrec
        simp only [combineNext, StepOut.next.injEq, Bool.and_eq_true] at hrec
        rcases List.mem_cons.mp hm with heq | hmem
        · injection heq with h1 h2
          subst h1; subst h2
          rw [hts, hrec.1]
        · exact ih (by rw [hrest, hrec.2]) tname ti hmem
      · rw [hrest] at hrec; simp [combineNext] at hrec
      · rw [hrest] at hrec; simp [combineNext] at hrec
    | retFalse => simp [tablesLoop, hts] at h
    | exc e => simp [tablesLoop, hts] at h

/-- A whole run that returns `True` had every schema iteration fall
through with its flag still set. -/
lemma schemasLoop_ok_true {st : DbState} {args : CompareArgs} {l : SchemaMap}
    (h : (schemasLoop st args l).2 = Except.ok true) :
    ∀ entry, entry ∈ l → (schemaStep st args entry).2 = StepOut.next true := by
  induction l with
  | nil => intro entry hm; cases hm
  | cons hd tl ih =>
    intro entry hm
    rcases hts : schemaStep st args hd with ⟨evs, out⟩
    cases out with
    | next s =>
      have hrec : combineOk s (schemasLoop st args tl).2 = Except.ok true := by
        simpa [schemasLoop, hts] using h
      rcases hrest : (schemasLoop st args tl).2 with e | b
      · rw [hrest] at hrec; simp [combineOk] at hrec
      · rw [hrest] at hrec
        simp only [combineOk, Except.ok.injEq, Bool.and_eq_true] at hrec
        rcases List.mem_cons.mp hm with heq | hmem
        · subst heq; rw [hts, hrec.1]
        · exact ih (by rw [hrest, hrec.2]) entry hmem
    | retFalse =>
      simp [schemasLoop, hts] at h
    | exc e => simp [schemasLoop, hts] at h

/-- A schema iteration that falls through with its flag still set, for a
schema that passes the allow-list and is present in the target, had its
per-table loop fall through with the flag still set. -/
lemma schemaStep_next_true_tables {st : DbState} {args : CompareArgs}
    {sname : String} {tables : TableMap} {tgtTables : TableMap}
    (hallow : (args.schemas.isEmpty || args.schemas.contains sname) = true)
    (htgt : st.tgtSchemas.lookup sname = some tgtTables)
    (h : (schemaStep st args (sname, tables)).2 = StepOut.next true) :
    (tablesLoop st args sname tgtTables tables).2 = StepOut.next true := by
  have hskip : ((!args.schemas.isEmpty) && (!args.schemas.contains sname)) = false := by
    simp only [Bool.or_eq_true] at hallow
    rcases hallow with h1 | h1
    · rw [h1]; rfl
    · rw [h1]; simp
  rw [schemaStep] at h
  simp only [hskip, Bool.false_eq_true, if_false, htgt] at h
  rcases hx : tgtTables.any (fun p => (tables.lookup p.1).isNone) with _ | _
  · rw [hx] at h
    simp only [Bool.false_and, Bool.false_eq_true, if_false, htgt,
      Option.isNone_some, Bool.not_false] at h
    rcases hrest : (tablesLoop st args sname tgtTables tables).2 with s2 | _ | e
    · rw [hrest] at h
      simp only [combineNext, Bool.true_and, StepOut.next.injEq] at h
      rw [h]
    · rw [hrest] at h; simp [combineNext] at h
    · rw [hrest] at h; simp [combineNext] at h
  · rw [hx] at h
    rcases hb : args.break_on_diff with _ | _
    · rw [hb] at h
      simp only [Bool.true_and, Bool.false_eq_true, if_false, htgt,
        Option.isNone_some, Bool.not_true] at h
      rcases hrest : (tablesLoop st args sname tgtTables tables).2 with s2 | _ | e
      · rw [hrest] at h
        simp [combineNext] at h
      · rw [hrest] at h; simp [combineNext] at h
      · rw [hrest] at h; simp [combineNext] at h
    · rw [hb] at h
      simp at h

/-- Combining a schema flag of `true` changes nothing. -/
lemma combineOk_true (r : Except PyExc Bool) : combineOk true r = r := by
  cases r <;> simp [combineOk]

/-! ## Concrete fixtures -/

/-- A `public.users` descriptor with primary key `id`. -/
def infoUsers : DbTableInfo :=
  { schema_name := "public", table_name := "users",
    primary_keys := some ["id"], columns := ["id", "name"] }

/-- Source `public.orders` of end-to-end scenario B: columns `id,total`. -/
def ordersSrc : DbTableInfo :=
  { schema_name := "public", table_name := "orders",
    primary_keys := some ["id"], columns := ["id", "total"] }

/-- Target `public.orders` of end-to-end scenario B: columns
`id,total,status`. -/
def ordersTgt : DbTableInfo :=
  { schema_name := "public", table_name := "orders",
    primary_keys := some ["id"], columns := ["id", "total", "status"] }

/-- A state with no schemas at all, used to instantiate general theorems. -/
def stTrivial : DbState :=
  { srcSchemas := [], tgtSchemas := [],
    srcCount := fun _ _ => 0, tgtCount := fun _ _ => 0,
    diffResult := fun _ _ => DiffRes.rows [] }

/-- State of end-to-end scenario B: same schema and table on both sides,
differing column lists, both tables empty. -/
def stScenB : DbState :=
  { srcSchemas := [("public", [("orders", ordersSrc)])],
    tgtSchemas := [("public", [("orders", ordersTgt)])],
    srcCount := fun _ _ => 0, tgtCount := fun _ _ => 0,
    diffResult := fun _ _ => DiffRes.rows [] }

/-- State with schema `public` on the source side only. -/
def stMissingTgt : DbState :=
  { srcSchemas := [("public", [("users", infoUsers)])],
    tgtSchemas := [],
    srcCount := fun _ _ => 0, tgtCount := fun _ _ => 0,
    diffResult := fun _ _ => DiffRes.rows [] }

/-- A `p.a` descriptor. -/
def infoA : DbTableInfo :=
  { schema_name := "p", table_name := "a",
    primary_keys := some ["id"], columns := ["id", "v"] }

/-- A `p.b` descriptor. -/
def infoB : DbTableInfo :=
  { schema_name := "p", table_name := "b",
    primary_keys := some ["id"], columns := ["id", "w"] }

/-- State where the target has an extra table `p.b` and everything else
matches (both sides of `p.a` empty). -/
def stExtra : DbState :=
  { srcSchemas := [("p", [("a", infoA)])],
    tgtSchemas := [("p", [("a", infoA), ("b", infoB)])],
    srcCount := fun _ _ => 0, tgtCount := fun _ _ => 0,
    diffResult := fun _ _ => DiffRes.rows [] }

/-- State whose single table pair matches in shape and counts but whose
row-diff materialisation raises a non-`ValueError` error. -/
def stDiffRaisesOther : DbState :=
  { srcSchemas := [("public", [("users", infoUsers)])],
    tgtSchemas := [("public", [("users", infoUsers)])],
    srcCount := fun _ _ => 5, tgtCount := fun _ _ => 5,
    diffResult := fun _ _ => DiffRes.raiseOther }

/-- State whose single table pair matches in shape and counts but whose
row-diff materialisation raises a `ValueError`. -/
def stDiffRaisesValue : DbState :=
  { srcSchemas := [("public", [("users", infoUsers)])],
    tgtSchemas := [("public", [("users", infoUsers)])],
    srcCount := fun _ _ => 5, tgtCount := fun _ _ => 5,
    diffResult := fun _ _ => DiffRes.raiseValue "incompatible types" }

/-- State whose single table pair matches in shape but differs in row
count (scenario C: 100 against 95). -/
def stScenC : DbState :=
  { srcSchemas := [("public", [("users", infoUsers)])],
    tgtSchemas := [("public", [("users", infoUsers)])],
    srcCount := fun _ _ => 100, tgtCount := fun _ _ => 95,
    diffResult := fun _ _ => DiffRes.rows [] }

/-- The nested dict `{x: {y: 1}}`. -/
def cxDict : PyVal := PyVal.dict [("x", PyVal.dict [("y", PyVal.leaf 1)])]

/-! ## The claims -/

/-- Claim C7: a source table whose primary-key list is empty or absent is
skipped as informational only -- the loop body emits only the skip log,
keeps the `is_same` flag set whatever the state of either database, and
issues neither a count query nor a row-diff invocation for the table. -/
theorem c7_no_primary_key_skipped (st : DbState) (args : CompareArgs)
    (sname : String) (tgtTables : TableMap) (tname : String) (ti : DbTableInfo)
    (hpk : pyFalsyKeys ti.primary_keys = true) :
    tableStep st args sname tgtTables tname ti
      = ([Event.noPk sname tname], StepOut.next true) := by
  simp [tableStep, hpk]

/-- Witness for C7 at a concrete no-primary-key table. -/
theorem c7_no_primary_key_skipped_witness :
    tableStep stTrivial { schemas := [], break_on_diff := true, output_file := false }
        "public" [] "logs"
        { schema_name := "public", table_name := "logs",
          primary_keys := none, columns := ["msg"] }
      = ([Event.noPk "public" "logs"], StepOut.next true) :=
  c7_no_primary_key_skipped stTrivial
    { schemas := [], break_on_diff := true, output_file := false }
    "public" [] "logs"
    { schema_name := "public", table_name := "logs",
      primary_keys := none, columns := ["msg"] } rfl

/-- Claim C6: a table pair whose descriptors compare equal and whose two
live row counts are both zero is trivially in sync -- the loop body runs
the two count queries, emits the empty log, keeps the `is_same` flag set,
and never invokes the row diff. -/
theorem c6_empty_both (st : DbState) (args : CompareArgs)
    (sname : String) (tgtTables : TableMap) (tname : String) (ti : DbTableInfo)
    (hpk : pyFalsyKeys ti.primary_keys = false)
    (hne : neTarget ti (tgtTables.lookup tname) = false)
    (hsrc : st.srcCount sname tname = 0)
    (htgt0 : st.tgtCount sname tname = 0) :
    tableStep st args sname tgtTables tname ti
      = ([Event.countSrc sname tname 0, Event.countTgt sname tname 0,
          Event.emptyBoth sname tname], StepOut.next true) := by
  simp [tableStep, hpk, hne, hsrc, htgt0]

/-- Witness for C6 at a concrete empty table pair. -/
theorem c6_empty_both_witness :
    tableStep stScenB { schemas := [], break_on_diff := true, output_file := false }
        "public" [("orders", ordersTgt)] "orders" ordersSrc
      = ([Event.countSrc "public" "orders" 0, Event.countTgt "public" "orders" 0,
          Event.emptyBoth "public" "orders"], StepOut.next true) :=
  c6_empty_both stScenB
    { schemas := [], break_on_diff := true, output_file := false }
    "public" [("orders", ordersTgt)] "orders" ordersSrc rfl rfl rfl rfl

/-- Claim C5: a table pair whose descriptors compare equal but whose live
row counts differ yields a count mismatch -- the loop body emits exactly
the two count queries and the mismatch log (so no row diff is invoked),
returns `False` at once under `break_on_diff` and otherwise clears the
`is_same` flag; consequently a run containing this table can never return
`True`. -/
theorem c5_count_mismatch (st : DbState) (args : CompareArgs)
    (sname : String) (tables : TableMap) (tgtTables : TableMap)
    (tname : String) (ti : DbTableInfo)
    (hallow : (args.schemas.isEmpty || args.schemas.contains sname) = true)
    (htgt : st.tgtSchemas.lookup sname = some tgtTables)
    (hmemS : (sname, tables) ∈ st.srcSchemas)
    (hmemT : (tname, ti) ∈ tables)
    (hpk : pyFalsyKeys ti.primary_keys = false)
    (hne : neTarget ti (tgtTables.lookup tname) = false)
    (hcnt : ¬ st.srcCount sname tname = st.tgtCount sname tname) :
    tableStep st args sname tgtTables tname ti
      = ([Event.countSrc sname tname (st.srcCount sname tname),
          Event.countTgt sname tname (st.tgtCount sname tname),
          Event.countMismatch sname tname],
          if args.break_on_diff then StepOut.retFalse else StepOut.next false)
      ∧ ¬ (data_compare st args).2 = Except.ok true := by
  have hstep : tableStep st args sname tgtTables tname ti
      = ([Event.countSrc sname tname (st.srcCount sname tname),
          Event.countTgt sname tname (st.tgtCount sname tname),
          Event.countMismatch sname tname],
          if args.break_on_diff then StepOut.retFalse else StepOut.next false) := by
    simp only [tableStep, hpk, hne, Bool.false_eq_true, if_false]
    rw [if_pos hcnt]
    rfl
  refine ⟨hstep, ?_⟩
  intro hok
  have hok' : (schemasLoop st args st.srcSchemas).2 = Except.ok true := hok
  have hs := schemasLoop_ok_true hok' (sname, tables) hmemS
  have hl := schemaStep_next_true_tables hallow htgt hs
  have htb := tablesLoop_next_true hl tname ti hmemT
  rw [hstep] at htb
  cases hb : args.break_on_diff <;> rw [hb] at htb <;> simp at htb

/-- Witness for C5 at end-to-end scenario C (counts 100 against 95). -/
theorem c5_count_mismatch_witness :
    tableStep stScenC { schemas := [], break_on_diff := false, output_file := false }
        "public" [("users", infoUsers)] "users" infoUsers
      = ([Event.countSrc "public" "users" 100, Event.countTgt "public" "users" 95,
          Event.countMismatch "public" "users"], StepOut.next false)
      ∧ ¬ (data_compare stScenC
            { schemas := [], break_on_diff := false, output_file := false }).2
          = Except.ok true :=
  c5_count_mismatch stScenC
    { schemas := [], break_on_diff := false, output_file := false }
    "public" [("users", infoUsers)] [("users", infoUsers)] "users" infoUsers
    rfl rfl (List.mem_singleton.mpr rfl) (List.mem_singleton.mpr rfl)
    rfl rfl (by decide)

/-- Claim C4, counterexample to the claim as stated: a row-diff failure
that is not a `ValueError` (modelled as `DiffRes.raiseOther`) is not
caught at src/differ.py line 248 -- it escapes `data_compare` and aborts
the run instead of being logged and skipped. -/
theorem c4_runtime_error_counterexample :
    data_compare stDiffRaisesOther
        { schemas := [], break_on_diff := true, output_file := false }
      = ([Event.countSrc "public" "users" 5, Event.countTgt "public" "users" 5,
          Event.diffInvoked "public" "users"],
          Except.error PyExc.runtimeError) := by
  rfl

/-- Claim C4 as amended: a `ValueError` raised while the row diff is
materialised is caught -- the loop body emits the failure log after the
two count queries and the diff invocation, keeps the `is_same` flag set,
and falls through to the next table without an early return, whatever
`break_on_diff` is. -/
theorem c4_value_error_caught (st : DbState) (args : CompareArgs)
    (sname : String) (tgtTables : TableMap) (tname : String) (ti : DbTableInfo)
    (msg : String)
    (hpk : pyFalsyKeys ti.primary_keys = false)
    (hne : neTarget ti (tgtTables.lookup tname) = false)
    (hcnt : st.srcCount sname tname = st.tgtCount sname tname)
    (hpos : ¬ st.srcCount sname tname = 0)
    (hdiff : st.diffResult sname tname = DiffRes.raiseValue msg) :
    tableStep st args sname tgtTables tname ti
      = ([Event.countSrc sname tname (st.srcCount sname tname),
          Event.countTgt sname tname (st.tgtCount sname tname),
          Event.diffInvoked sname tname, Event.diffFailed sname tname],
          StepOut.next true) := by
  simp only [tableStep, hpk, hne, hdiff, Bool.false_eq_true, if_false]
  rw [if_neg (not_not_intro hcnt), if_neg hpos]
  rfl

/-- Witness for C4 at a concrete table pair whose diff raises
`ValueError`. -/
theorem c4_value_error_caught_witness :
    tableStep stDiffRaisesValue
        { schemas := [], break_on_diff := true, output_file := false }
        "public" [("users", infoUsers)] "users" infoUsers
      = ([Event.countSrc "public" "users" 5, Event.countTgt "public" "users" 5,
          Event.diffInvoked "public" "users", Event.diffFailed "public" "users"],
          StepOut.next true) :=
  c4_value_error_caught stDiffRaisesValue
    { schemas := [], break_on_diff := true, output_file := false }
    "public" [("users", infoUsers)] "users" infoUsers "incompatible types"
    rfl rfl rfl (by decide) rfl

/-- Claim C1, evaluation at the failing input: the scenario-B descriptors
differ in their column sequences, so the specified equality rejects them,
yet the truth value of `__eq__` between them is `true` (the trailing
comma makes the method return a non-empty tuple) and `!=` is `false`; as
a result the scenario-B run records no shape mismatch and returns `True`
instead of the specified shape-mismatch verdict of `False`. -/
theorem c1_trailing_comma_defeats_equality :
    DbTableInfo.specEq ordersSrc ordersTgt = false
    ∧ DbTableInfo.pyEqBool ordersSrc ordersTgt = true
    ∧ DbTableInfo.pyNe ordersSrc ordersTgt = false
    ∧ data_compare stScenB { schemas := [], break_on_diff := false, output_file := false }
      = ([Event.countSrc "public" "orders" 0, Event.countTgt "public" "orders" 0,
          Event.emptyBoth "public" "orders"], Except.ok true) := by
  refine ⟨by decide, rfl, rfl, rfl⟩

/-- Claim C2, evaluation at the failing input: with schema `public`
present in the source map and absent from the target map, `data_compare`
raises `KeyError` from the subscript `target.schemas[schema_name]` in the
extra-tables check (src/differ.py line 177) before the missing-schema
branch of line 184 can run, in both `break_on_diff` modes, recording
nothing. -/
theorem c2_missing_target_schema_raises :
    data_compare stMissingTgt { schemas := [], break_on_diff := false, output_file := false }
      = ([], Except.error (PyExc.keyError "public"))
    ∧ data_compare stMissingTgt { schemas := [], break_on_diff := true, output_file := false }
      = ([], Except.error (PyExc.keyError "public")) := by
  exact ⟨rfl, rfl⟩

/-- Claim C3, counterexample to the claim as stated: in a state whose
only difference is an extra target table, the extra-tables condition by
itself flips the verdict to `False`, and under `break_on_diff` it returns
`False` immediately, before any table of the schema is visited (no count
query appears in the trace). -/
theorem c3_extra_tables_counterexample :
    data_compare stExtra { schemas := [], break_on_diff := true, output_file := false }
      = ([Event.extraTables "p"], Except.ok false)
    ∧ data_compare stExtra { schemas := [], break_on_diff := false, output_file := false }
      = ([Event.extraTables "p", Event.countSrc "p" "a" 0, Event.countTgt "p" "a" 0,
          Event.emptyBoth "p" "a"], Except.ok false) := by
  exact ⟨rfl, rfl⟩

/-- Claim C3 as amended: for a schema that passes the allow-list, exists
in the target, and has extra target tables, the schema iteration records
the extra-tables failure and clears the `is_same` flag; with
`break_on_diff` set it returns `False` immediately (before any per-table
work), and with it unset the per-table iteration still proceeds, but the
iteration can no longer end with the flag set. -/
theorem c3_extra_tables_amended (st : DbState) (args : CompareArgs)
    (sname : String) (tables : TableMap) (tgtTables : TableMap)
    (hallow : (args.schemas.isEmpty || args.schemas.contains sname) = true)
    (htgt : st.tgtSchemas.lookup sname = some tgtTables)
    (hextra : tgtTables.any (fun p => (tables.lookup p.1).isNone) = true) :
    (args.break_on_diff = true →
      schemaStep st args (sname, tables) = ([Event.extraTables sname], StepOut.retFalse))
    ∧ (args.break_on_diff = false →
      schemaStep st args (sname, tables)
        = (Event.extraTables sname :: (tablesLoop st args sname tgtTables tables).1,
            combineNext false (tablesLoop st args sname tgtTables tables).2)
      ∧ ¬ combineNext false (tablesLoop st args sname tgtTables tables).2
          = StepOut.next true) := by
  have hskip : ((!args.schemas.isEmpty) && (!args.schemas.contains sname)) = false := by
    simp only [Bool.or_eq_true] at hallow
    rcases hallow with h1 | h1
    · rw [h1]; rfl
    · rw [h1]; simp
  constructor
  · intro hb
    rw [schemaStep]
    simp only [hskip, Bool.false_eq_true, if_false, htgt]
    simp [hextra, hb]
  · intro hb
    constructor
    · rw [schemaStep]
      simp only [hskip, Bool.false_eq_true, if_false, htgt]
      simp [hextra, hb]
    · cases hrest : (tablesLoop st args sname tgtTables tables).2 <;>
        simp [combineNext]

/-- Witness for the amended C3 at the concrete extra-tables state. -/
theorem c3_extra_tables_amended_witness :
    schemaStep stExtra { schemas := [], break_on_diff := true, output_file := false }
        ("p", [("a", infoA)])
      = ([Event.extraTables "p"], StepOut.retFalse) :=
  (c3_extra_tables_amended stExtra
    { schemas := [], break_on_diff := true, output_file := false }
    "p" [("a", infoA)] [("a", infoA), ("b", infoB)]
    rfl rfl rfl).1 rfl

/-- Claim C8: when a non-empty allow-list is given and a source schema is
not on it, the schema iteration emits only the informational skip log and
keeps the `is_same` flag set; moreover removing that schema from the
source map leaves the returned verdict (or exception) of the whole run
unchanged, so the skipped schema never affects the result and none of its
tables is compared. -/
theorem c8_allowlist_skip (st : DbState) (args : CompareArgs)
    (sname : String) (tables : TableMap)
    (hne : args.schemas.isEmpty = false)
    (hnc : args.schemas.contains sname = false) :
    schemaStep st args (sname, tables) = ([Event.skippedSchema sname], StepOut.next true)
    ∧ ∀ pre post : SchemaMap,
        (schemasLoop st args (pre ++ (sname, tables) :: post)).2
          = (schemasLoop st args (pre ++ post)).2 := by
  have hcond : ((!args.schemas.isEmpty) && (!args.schemas.contains sname)) = true := by
    rw [hne, hnc]; rfl
  have hstep : schemaStep st args (sname, tables)
      = ([Event.skippedSchema sname], StepOut.next true) := by
    rw [schemaStep]
    simp only [hcond, if_true]
  refine ⟨hstep, ?_⟩
  intro pre post
  induction pre with
  | nil =>
    simp only [List.nil_append, schemasLoop, hstep, combineOk_true]
  | cons p pre ih =>
    rcases hps : schemaStep st args p with ⟨evs, out⟩
    cases out with
    | next s =>
      simp only [List.cons_append, schemasLoop, hps, List.append_eq]
      rw [ih]
    | retFalse => simp only [List.cons_append, schemasLoop, hps]
    | exc e => simp only [List.cons_append, schemasLoop, hps]

/-- Witness for C8 at a concrete run whose allow-list excludes the only
source schema. -/
theorem c8_allowlist_skip_witness :
    schemaStep stScenC { schemas := ["sead"], break_on_diff := false, output_file := false }
        ("public", [("users", infoUsers)])
      = ([Event.skippedSchema "public"], StepOut.next true)
    ∧ (schemasLoop stScenC
          { schemas := ["sead"], break_on_diff := false, output_file := false }
          ([] ++ ("public", [("users", infoUsers)]) :: [])).2
        = (schemasLoop stScenC
            { schemas := ["sead"], break_on_diff := false, output_file := false }
            ([] ++ [])).2 :=
  ⟨(c8_allowlist_skip stScenC
      { schemas := ["sead"], break_on_diff := false, output_file := false }
      "public" [("users", infoUsers)] rfl rfl).1,
    (c8_allowlist_skip stScenC
      { schemas := ["sead"], break_on_diff := false, output_file := false }
      "public" [("users", infoUsers)] rfl rfl).2 [] []⟩

/-- Claim C9, counterexample to the claim as stated: on the nested dict
`{x: {y: 1}}` the '.'-joined path finds the nested value but the
'_'-joined path is looked up as the literal key `"x_y"` and misses, so
the two syntaxes are not synonyms. -/
theorem c9_underscore_counterexample :
    dotget cxDict "x.y" = some (PyVal.leaf 1)
    ∧ dotget cxDict "x_y" = none
    ∧ dotexpand "x_y" = ["x_y"] := by
  exact ⟨rfl, rfl, by decide⟩

/-- Claim C9 as amended: the dual-syntax search is attached to the
':'-joined form -- `dotget` on `"x:y"` first tries the nested '.'-joined
reading and falls back to the literal '_'-joined key -- while a plain
'_'-joined path is not expanded. -/
theorem c9_colon_dual_lookup (d : PyVal) :
    dotget d "x:y"
      = (match dotget d "x.y" with
          | some v => some v
          | none => dotget d "x_y") := by
  have he : dotexpand "x:y" = ["x.y", "x_y"] := by decide
  have he2 : dotexpand "x.y" = ["x.y"] := by decide
  have he3 : dotexpand "x_y" = ["x_y"] := by decide
  have h1 : pySplit '.' "x.y" = ["x", "y"] := by decide
  have h2 : pySplit '.' "x_y" = ["x_y"] := by decide
  have l1 : dotget d "x:y"
      = (match pyGetPath d ["x", "y"] with
          | some v => some v
          | none =>
            match pyGetPath d ["x_y"] with
            | some v => some v
            | none => none) := by
    rw [dotget, he]
    simp only [dotgetList, h1, h2]
  have l2 : dotget d "x.y"
      = (match pyGetPath d ["x", "y"] with
          | some v => some v
          | none => none) := by
    rw [dotget, he2]
    simp only [dotgetList, h1]
  have l3 : dotget d "x_y"
      = (match pyGetPath d ["x_y"] with
          | some v => some v
          | none => none) := by
    rw [dotget, he3]
    simp only [dotgetList, h2]
  rw [l1, l2, l3]
  cases pyGetPath d ["x", "y"] <;> cases pyGetPath d ["x_y"] <;> rfl

/-- Claim C10: every `Config` built by the constructor has no `data`
attribute, so `Config.get` raises `AttributeError` for every key set,
`mandatory` flag and default, `Config.exists` raises the same way, and
stored values are reachable only through plain dict indexing. -/
theorem c10_config_get_attribute_error (m : List (String × PyVal))
    (keys : List String) (mandatory : Bool) (default : Option PyVal) :
    Config.get (Config.make m) keys mandatory default
      = Except.error (PyExc.attributeError "data")
    ∧ Config.existsKeys (Config.make m) keys
      = Except.error (PyExc.attributeError "data")
    ∧ ∀ k v, pyDictGet m k = some v →
        Config.getitem (Config.make m) k = Except.ok v := by
  have hattr : (Config.make m).dataAttr = Except.error (PyExc.attributeError "data") := rfl
  have hex : Config.existsKeys (Config.make m) keys
      = Except.error (PyExc.attributeError "data") := by
    rw [Config.existsKeys, hattr]
  refine ⟨?_, hex, ?_⟩
  · cases mandatory with
    | false =>
      rw [Config.get]
      simp only [Bool.false_eq_true, if_false, Config.getBody, hattr]
    | true =>
      rw [Config.get]
      simp only [if_true, hex]
  · intro k v hk
    rw [Config.getitem]
    simp only [Config.make, hk]

/-- Witness for C10 at a concrete one-entry configuration. -/
theorem c10_config_get_attribute_error_witness :
    Config.get (Config.make [("source", PyVal.leaf 7)]) ["source"] false none
      = Except.error (PyExc.attributeError "data")
    ∧ Config.getitem (Config.make [("source", PyVal.leaf 7)]) "source"
      = Except.ok (PyVal.leaf 7) :=
  ⟨(c10_config_get_attribute_error [("source", PyVal.leaf 7)] ["source"] false none).1,
    (c10_config_get_attribute_error [("source", PyVal.leaf 7)] ["source"] false none).2.2
      "source" (PyVal.leaf 7) rfl⟩
